import Mathlib

/-!
Shallow embedding of the lockdownd client (src/lockdown.c) of
libimobiledevice: the plist request/response engine, the pairing state
machine, the session lifecycle and the service launcher, together with
theorems settling the specification claims about them.

External collaborators (the mux transport, the plist codec, the trust
store, gnutls) appear as explicit inputs: each operation takes the
outcome of its send, of its receive (either a transport-level error or
the parsed response dictionary) and, where relevant, of the TLS
handshake, and returns the resulting error code, the updated client and
trust-store state, and the list of request dictionaries it handed to
`lockdownd_send` (empty when the operation bailed out before sending).
-/

/-- Property-list values, as far as lockdown.c inspects them:
strings, data blobs, booleans, unsigned integers and dictionaries
(`plist_dict_get_item` / `plist_dict_insert_item`). -/
inductive Plist where
  | str : String → Plist
  | data : List Nat → Plist
  | boolean : Bool → Plist
  | uint : Nat → Plist
  | dict : List (String × Plist) → Plist

/-- Embeds `plist_dict_get_item`: first entry with the given key, when the node
is a dictionary. -/
def plist_dict_get_item (p : Plist) (k : String) : Option Plist :=
  match p with
  | .dict es => (es.find? (fun e => e.1 == k)).map (·.2)
  | _ => none

/-- Embeds `plist_dict_insert_item`: append a key/value pair to a dictionary
node (requests are always built on fresh dictionaries). -/
def plist_dict_insert_item (p : Plist) (k : String) (v : Plist) : Plist :=
  match p with
  | .dict es => .dict (es ++ [(k, v)])
  | _ => p

/-- The `lockdownd_error_t` codes used by lockdown.c. -/
inductive LockdownError where
  | success
  | invalidArg
  | invalidConf
  | plistError
  | muxError
  | sslError
  | noRunningSession
  | invalidHostId
  | pairingFailed
  | passwordProtected
  | startServiceFailed
  | activationFailed
  | unknownError
  | notEnoughData
deriving DecidableEq

/-- The mutable fields of `struct lockdownd_client_int` that the core
logic reads or writes. -/
structure Client where
  session_id : Option String
  ssl_enabled : Bool
  uuid : Option String
  label : Option String
deriving DecidableEq

/-- The userpref trust store as lockdown.c consumes it: the host id and
the map from device uuid to device public key. -/
structure TrustStore where
  host_id : Option String
  device_keys : List (String × List Nat)
deriving DecidableEq

/-- Embeds `userpref_has_device_public_key`. -/
def TrustStore.hasDeviceKey (s : TrustStore) (uuid : String) : Bool :=
  s.device_keys.any (fun e => e.1 == uuid)

/-- Embeds `userpref_set_device_public_key`. -/
def TrustStore.setDeviceKey (s : TrustStore) (uuid : String) (key : List Nat) : TrustStore :=
  { s with device_keys := (uuid, key) :: s.device_keys.filter (fun e => e.1 != uuid) }

/-- Embeds `userpref_remove_device_public_key`. -/
def TrustStore.removeDeviceKey (s : TrustStore) (uuid : String) : TrustStore :=
  { s with device_keys := s.device_keys.filter (fun e => e.1 != uuid) }

/-- Embeds `lockdown_check_result(dict, query_match)`: `0` (RESULT_SUCCESS)
when the response echoes the request name and carries `Result` =
"Success", `1` (RESULT_FAILURE) when it carries `Result` = "Failure",
and `-1` for any other shape. -/
def lockdown_check_result (dict : Plist) (query_match : String) : Int :=
  match plist_dict_get_item dict "Request" with
  | none => -1
  | some query_node =>
    match query_node with
    | .str query_value =>
      if query_value ≠ query_match then -1
      else
        match plist_dict_get_item dict "Result" with
        | none => -1
        | some result_node =>
          match result_node with
          | .str result_value =>
            if result_value = "Success" then 0
            else if result_value = "Failure" then 1
            else -1
          | _ => -1
    | _ => -1

/-- Embeds `plist_dict_add_label`: insert `Label` when both the dictionary and
the label are present. -/
def plist_dict_add_label (p : Plist) (label : Option String) : Plist :=
  match label with
  | some l => plist_dict_insert_item p "Label" (.str l)
  | none => p

/-- Outcome of `lockdownd_recv`: either a transport/protocol error code
with no dictionary, or a parsed response dictionary. -/
abbrev RecvResult := Except LockdownError Plist

/-- Embeds `lockdownd_get_value(client, domain, key, &value)`. Unlike
the sibling verbs, this function never resets `ret` to UNKNOWN_ERROR
between the receive and the `lockdown_check_result` test: a successful
receive leaves `ret` at LOCKDOWN_E_SUCCESS, the check-success branch
only re-assigns LOCKDOWN_E_SUCCESS, and the failed-check guard
`if (ret != LOCKDOWN_E_SUCCESS)` can never fire — so every parseable
response is accepted and its `Value` node extracted, whatever the
verdict of the check. Returns the error code, the copied `Value` node
and the requests handed to `lockdownd_send`. -/
def lockdownd_get_value (client : Client) (domain key : Option String)
    (send_res : LockdownError) (recv_res : RecvResult) :
    LockdownError × Option Plist × List Plist :=
  let dict0 := plist_dict_add_label (.dict []) client.label
  let dict1 := match domain with
    | some d => plist_dict_insert_item dict0 "Domain" (.str d)
    | none => dict0
  let dict2 := match key with
    | some k => plist_dict_insert_item dict1 "Key" (.str k)
    | none => dict1
  let req := plist_dict_insert_item dict2 "Request" (.str "GetValue")
  if send_res ≠ .success then (send_res, none, [req])
  else
    match recv_res with
    | .error e => (e, none, [req])
    | .ok dict =>
      (.success, plist_dict_get_item dict "Value", [req])

/-- Embeds `lockdownd_query_type(client, &type)`: returns the error code and
the `Type` string extracted from the response on success. The send
result is not consulted by the source (its `ret` is overwritten by the
receive). -/
def lockdownd_query_type (_client : Client) (recv_res : RecvResult) :
    LockdownError × Option String :=
  match recv_res with
  | .error e => (e, none)
  | .ok dict =>
    if lockdown_check_result dict "QueryType" = 0 then
      (.success,
       match plist_dict_get_item dict "Type" with
       | some (.str t) => some t
       | _ => none)
    else (.unknownError, none)

/-- The PEM certificate triple produced by `lockdownd_gen_pair_cert`
(the gnutls/libtasn1 fabrication itself is an external collaborator;
its outcome is an input of the pairing engine). -/
structure PairCerts where
  device_cert : List Nat
  host_cert : List Nat
  root_cert : List Nat

/-- The external outcomes consumed by one run of `lockdownd_do_pair`:
the device public key fetch, the certificate fabrication, the send and
the receive. -/
structure PairEnv where
  pk_res : Except LockdownError (List Nat)
  cert_res : Except LockdownError PairCerts
  send_res : LockdownError
  recv_res : RecvResult

/-- Result of `lockdownd_do_pair`: error code, trust store after the
call, requests handed to `lockdownd_send`. -/
structure PairOutcome where
  err : LockdownError
  store : TrustStore
  sent : List Plist

/-- Embeds `lockdownd_do_pair(client, host_id, verb)`: the shared
implementation of Pair, ValidatePair and Unpair. -/
def lockdownd_do_pair (client : Client) (store : TrustStore)
    (host_id : Option String) (verb : String) (env : PairEnv) : PairOutcome :=
  match env.pk_res with
  | .error e => ⟨e, store, []⟩
  | .ok public_key =>
    match env.cert_res with
    | .error e => ⟨e, store, []⟩
    | .ok certs =>
      let host_id_loc := match host_id with
        | some h => some h
        | none => store.host_id
      let dict_record : Plist := .dict
        [("DeviceCertificate", .data certs.device_cert),
         ("HostCertificate", .data certs.host_cert),
         ("HostID", .str (host_id_loc.getD "")),
         ("RootCertificate", .data certs.root_cert)]
      let dict0 := plist_dict_add_label (.dict []) client.label
      let dict1 := plist_dict_insert_item dict0 "PairRecord" dict_record
      let req := plist_dict_insert_item dict1 "Request" (.str verb)
      if env.send_res ≠ .success then ⟨env.send_res, store, [req]⟩
      else
        match env.recv_res with
        | .error e => ⟨e, store, [req]⟩
        | .ok dict =>
          if lockdown_check_result dict verb = 0 then
            if verb = "Unpair" then
              ⟨.success, store.removeDeviceKey (client.uuid.getD ""), [req]⟩
            else
              ⟨.success, store.setDeviceKey (client.uuid.getD "") public_key, [req]⟩
          else
            let err := match plist_dict_get_item dict "Error" with
              | some (.str v) =>
                if v = "PasswordProtected" then LockdownError.passwordProtected
                else LockdownError.pairingFailed
              | _ => LockdownError.pairingFailed
            ⟨err, store, [req]⟩

/-- Embeds `lockdownd_pair`. -/
def lockdownd_pair (client : Client) (store : TrustStore)
    (host_id : Option String) (env : PairEnv) : PairOutcome :=
  lockdownd_do_pair client store host_id "Pair" env

/-- Embeds `lockdownd_validate_pair`. -/
def lockdownd_validate_pair (client : Client) (store : TrustStore)
    (host_id : Option String) (env : PairEnv) : PairOutcome :=
  lockdownd_do_pair client store host_id "ValidatePair" env

/-- Embeds `lockdownd_unpair`. -/
def lockdownd_unpair (client : Client) (store : TrustStore)
    (host_id : Option String) (env : PairEnv) : PairOutcome :=
  lockdownd_do_pair client store host_id "Unpair" env

/-- Embeds `lockdownd_ssl_stop_session`: send close-notify iff TLS was active,
reset `ssl_enabled`, clear the stored `session_id`. Returns the updated
client and whether a close-notify (`gnutls_bye`) was sent. -/
def lockdownd_ssl_stop_session (client : Client) : Client × Bool :=
  ({ client with ssl_enabled := false, session_id := none }, client.ssl_enabled)

/-- Result of `lockdownd_stop_session`: error code, client afterwards,
whether a TLS close-notify was sent, requests handed to
`lockdownd_send`. -/
structure StopOutcome where
  err : LockdownError
  client : Client
  closeNotifySent : Bool
  sent : List Plist

/-- Embeds `lockdownd_stop_session(client, session_id)`. The send result is
not consulted by the source (its `ret` is overwritten by the receive);
only the received dictionary matters. -/
def lockdownd_stop_session (client : Client) (session_id : Option String)
    (recv_res : RecvResult) : StopOutcome :=
  match session_id with
  | none => ⟨.invalidArg, client, false, []⟩
  | some sid =>
    let dict0 := plist_dict_add_label (.dict []) client.label
    let dict1 := plist_dict_insert_item dict0 "Request" (.str "StopSession")
    let req := plist_dict_insert_item dict1 "SessionID" (.str sid)
    match recv_res with
    | .error _ => ⟨.plistError, client, false, [req]⟩
    | .ok dict =>
      let err := if lockdown_check_result dict "StopSession" = 0 then
          LockdownError.success
        else LockdownError.unknownError
      let (client2, notified) := lockdownd_ssl_stop_session client
      ⟨err, client2, notified, [req]⟩

/-- Embeds `lockdownd_ssl_start_session`: set up gnutls and handshake. On
handshake success `ssl_enabled` is set and LOCKDOWN_E_SUCCESS returned;
on handshake failure the client is left as it was and
LOCKDOWN_E_SSL_ERROR (the initial `ret`) is returned. The handshake
outcome is an external input. -/
def lockdownd_ssl_start_session (client : Client) (handshake_ok : Bool) :
    LockdownError × Client :=
  if handshake_ok then (.success, { client with ssl_enabled := true })
  else (.sslError, client)

/-- The external outcomes consumed by one run of
`lockdownd_start_session`: the receive of the nested StopSession (when
a session is already running), the send, the receive, and the TLS
handshake outcome. -/
structure StartSessionEnv where
  stop_recv : RecvResult
  send_res : LockdownError
  recv_res : RecvResult
  handshake_ok : Bool

/-- Result of `lockdownd_start_session`: error code, client afterwards,
the `*ssl_enabled` out-parameter, requests handed to `lockdownd_send`. -/
structure StartSessionOutcome where
  err : LockdownError
  client : Client
  use_ssl : Bool
  sent : List Plist

/-- Embeds `lockdownd_start_session(client, host_id, &session_id,
&ssl_enabled)`. The initial `!host_id` check only assigns `ret`, which
is unconditionally overwritten by the send result, so it has no
observable effect. -/
def lockdownd_start_session (client : Client) (host_id : Option String)
    (env : StartSessionEnv) : StartSessionOutcome :=
  let (client1, sent0) :=
    match client.session_id with
    | some sid =>
      let so := lockdownd_stop_session client (some sid) env.stop_recv
      (so.client, so.sent)
    | none => (client, [])
  let dict0 := plist_dict_add_label (.dict []) client1.label
  let dict1 := plist_dict_insert_item dict0 "HostID" (.str (host_id.getD ""))
  let req := plist_dict_insert_item dict1 "Request" (.str "StartSession")
  let sent := sent0 ++ [req]
  if env.send_res ≠ .success then ⟨env.send_res, client1, false, sent⟩
  else
    match env.recv_res with
    | .error _ => ⟨.plistError, client1, false, sent⟩
    | .ok dict =>
      if lockdown_check_result dict "StartSession" = 1 then
        let err := match plist_dict_get_item dict "Error" with
          | some (.str e) =>
            if e = "InvalidHostID" then LockdownError.invalidHostId
            else LockdownError.success
          | _ => LockdownError.success
        ⟨err, client1, false, sent⟩
      else
        let use_ssl := match plist_dict_get_item dict "EnableSessionSSL" with
          | some (.boolean b) => b
          | _ => false
        let client2 := match plist_dict_get_item dict "SessionID" with
          | some (.str s) => { client1 with session_id := some s }
          | _ => client1
        if use_ssl then
          let (e, client3) := lockdownd_ssl_start_session client2 env.handshake_ok
          ⟨e, client3, use_ssl, sent⟩
        else
          ⟨.success, { client2 with ssl_enabled := false }, use_ssl, sent⟩

/-- Embeds the C `int` reinterpretation of a 32-bit unsigned value
(the type of the `*port` out-parameter of start_service). -/
def toInt32 (n : Nat) : Int :=
  if n < 2 ^ 31 then (n : Int) else (n : Int) - 2 ^ 32

/-- Result of `lockdownd_start_service`: error code, the `int *port`
out-parameter, requests handed to `lockdownd_send`. -/
structure StartServiceOutcome where
  err : LockdownError
  port : Option Int
  sent : List Plist

/-- Embeds `lockdownd_start_service(client, service, &port)`. The Port
node is read into a `uint64_t` (`plist_get_uint_val`), tested non-zero
at that width, truncated into the `uint32_t` local `port_loc`, and
stored into the `int *port` out-parameter. -/
def lockdownd_start_service (client : Client) (store : TrustStore)
    (service : String) (send_res : LockdownError) (recv_res : RecvResult) :
    StartServiceOutcome :=
  match store.host_id with
  | none => ⟨.invalidConf, none, []⟩
  | some _ =>
    if client.session_id.isNone then ⟨.noRunningSession, none, []⟩
    else
      let dict0 := plist_dict_add_label (.dict []) client.label
      let dict1 := plist_dict_insert_item dict0 "Request" (.str "StartService")
      let req := plist_dict_insert_item dict1 "Service" (.str service)
      if send_res ≠ .success then ⟨send_res, none, [req]⟩
      else
        match recv_res with
        | .error e => ⟨e, none, [req]⟩
        | .ok dict =>
          if lockdown_check_result dict "StartService" = 0 then
            match plist_dict_get_item dict "Port" with
            | some (.uint v) =>
              let port_value := v % 2 ^ 64
              if port_value ≠ 0 then
                ⟨.success, some (toInt32 (port_value % 2 ^ 32)), [req]⟩
              else ⟨.unknownError, none, [req]⟩
            | _ => ⟨.unknownError, none, [req]⟩
          else ⟨.startServiceFailed, none, [req]⟩

/-- Embeds `lockdownd_activate(client, activation_record)`: error code and
requests handed to `lockdownd_send`. The send result is not consulted
by the source (its `ret` is overwritten by the receive). -/
def lockdownd_activate (client : Client) (activation_record : Option Plist)
    (recv_res : RecvResult) : LockdownError × List Plist :=
  if client.session_id.isNone then (.noRunningSession, [])
  else
    match activation_record with
    | none => (.invalidArg, [])
    | some record =>
      let dict0 := plist_dict_add_label (.dict []) client.label
      let dict1 := plist_dict_insert_item dict0 "Request" (.str "Activate")
      let req := plist_dict_insert_item dict1 "ActivationRecord" record
      match recv_res with
      | .error _ => (.plistError, [req])
      | .ok dict =>
        if lockdown_check_result dict "Activate" = 0 then (.success, [req])
        else (.activationFailed, [req])

/-- Embeds `lockdownd_deactivate(client)`: error code and requests handed to
`lockdownd_send`. The send result is not consulted by the source. -/
def lockdownd_deactivate (client : Client) (recv_res : RecvResult) :
    LockdownError × List Plist :=
  if client.session_id.isNone then (.noRunningSession, [])
  else
    let dict0 := plist_dict_add_label (.dict []) client.label
    let req := plist_dict_insert_item dict0 "Request" (.str "Deactivate")
    match recv_res with
    | .error _ => (.plistError, [req])
    | .ok dict =>
      if lockdown_check_result dict "Deactivate" = 0 then (.success, [req])
      else (.unknownError, [req])

/-- Embeds `lockdownd_client_new(device, &client, label)`. The source calls
`strdup(label)` when a label is given but discards the result, so the
new client's `label` field keeps the value it was initialized with
(NULL); on mux failure `*client` is left untouched. -/
def lockdownd_client_new (mux_ok : Bool) (label : Option String) :
    LockdownError × Option Client :=
  if ¬ mux_ok then (.muxError, none)
  else
    let client_loc : Client :=
      { session_id := none, ssl_enabled := false, uuid := none, label := none }
    let _ := label
    (.success, some client_loc)

/-- The external outcomes consumed by one run of
`lockdownd_client_new_with_handshake` (the mux connect, which the
source path with a NULL client would dereference, is taken as
succeeding): the QueryType receive, the uuid fetch, the environments of
the Pair, ValidatePair and StartSession steps. -/
structure HandshakeEnv where
  qt_recv : RecvResult
  uuid_res : LockdownError
  pair_env : PairEnv
  validate_env : PairEnv
  ss_env : StartSessionEnv

/-- Embeds `lockdownd_client_new_with_handshake(device, &client, label)`:
returns the error code, the constructed client (`none` when the partial
client was freed) and the trust store afterwards. -/
def lockdownd_client_new_with_handshake (store : TrustStore)
    (label : Option String) (device_uuid : String) (env : HandshakeEnv) :
    LockdownError × Option Client × TrustStore :=
  match (lockdownd_client_new true label).2 with
  | none => (.muxError, none, store)
  | some client0 =>
    let qt := lockdownd_query_type client0 env.qt_recv
    let ret1 : LockdownError :=
      if qt.1 ≠ .success then .notEnoughData else .success
    let client1 :=
      if env.uuid_res = .success then { client0 with uuid := some device_uuid }
      else client0
    let ret2 := env.uuid_res
    let _ := ret1
    let host_id := store.host_id
    let ret3 := if ret2 = .success ∧ host_id = none then .invalidConf else ret2
    let (_, store1) :=
      if ret3 = .success ∧ ¬ store.hasDeviceKey (client1.uuid.getD "") then
        let po := lockdownd_pair client1 store host_id env.pair_env
        (po.err, po.store)
      else (ret3, store)
    let vo := lockdownd_validate_pair client1 store1 host_id env.validate_env
    let ret5 := vo.err
    let store2 := vo.store
    if ret5 = .success then
      let so := lockdownd_start_session client1 host_id env.ss_env
      if so.err = .success then (.success, some so.client, store2)
      else (.sslError, none, store2)
    else (ret5, none, store2)

/-- Specification-side description of the pairing verbs' trust-store
effect (claim C1, following the spec's words): the store is mutated
only after the device replies Result=Success — on success of Unpair
the device entry is removed, on success of Pair or ValidatePair the
freshly fetched device public key is stored; on failure, or on any
earlier error, the store is unchanged. -/
def pairTrustStoreSpec (client : Client) (store : TrustStore)
    (verb : String) (env : PairEnv) : TrustStore :=
  match env.pk_res, env.cert_res, env.recv_res with
  | .ok public_key, .ok _, .ok dict =>
    if env.send_res = .success ∧ lockdown_check_result dict verb = 0 then
      if verb = "Unpair" then store.removeDeviceKey (client.uuid.getD "")
      else store.setDeviceKey (client.uuid.getD "") public_key
    else store
  | _, _, _ => store

/-- Specification-side shape of an acceptable response (claim C2,
following the spec's words): a string `Request` echoing the sent verb
and a string `Result` with the given value. -/
def responseShapeOk (dict : Plist) (verb result : String) : Prop :=
  plist_dict_get_item dict "Request" = some (.str verb) ∧
  plist_dict_get_item dict "Result" = some (.str result)

theorem check_result_eq_zero_iff (dict : Plist) (verb : String) :
    lockdown_check_result dict verb = 0 ↔ responseShapeOk dict verb "Success" := by
  unfold lockdown_check_result responseShapeOk
  rcases hq : plist_dict_get_item dict "Request" with _ | q
  · dsimp only
    exact iff_of_false (by decide) (by simp)
  · rcases q with s | d | b | n | es <;> dsimp only
    · by_cases hs : s = verb
      · subst hs
        rw [if_neg (by simp : ¬ (s ≠ s))]
        rcases hr : plist_dict_get_item dict "Result" with _ | r
        · exact iff_of_false (by decide) (by simp [hr])
        · rcases r with t | _ | _ | _ | _ <;> dsimp only
          · by_cases ht : t = "Success"
            · subst ht; simp [hr]
            · by_cases hf : t = "Failure"
              · rw [if_neg ht, if_pos hf]
                exact iff_of_false (by decide) (by simp [hr, ht])
              · rw [if_neg ht, if_neg hf]
                exact iff_of_false (by decide) (by simp [hr, ht])
          · exact iff_of_false (by decide) (by simp [hr])
          · exact iff_of_false (by decide) (by simp [hr])
          · exact iff_of_false (by decide) (by simp [hr])
          · exact iff_of_false (by decide) (by simp [hr])
      · rw [if_pos hs]
        exact iff_of_false (by decide) (by simp [hs])
    · exact iff_of_false (by decide) (by simp)
    · exact iff_of_false (by decide) (by simp)
    · exact iff_of_false (by decide) (by simp)
    · exact iff_of_false (by decide) (by simp)

theorem check_result_eq_one_iff (dict : Plist) (verb : String) :
    lockdown_check_result dict verb = 1 ↔ responseShapeOk dict verb "Failure" := by
  unfold lockdown_check_result responseShapeOk
  rcases hq : plist_dict_get_item dict "Request" with _ | q
  · dsimp only
    exact iff_of_false (by decide) (by simp)
  · rcases q with s | d | b | n | es <;> dsimp only
    · by_cases hs : s = verb
      · subst hs
        rw [if_neg (by simp : ¬ (s ≠ s))]
        rcases hr : plist_dict_get_item dict "Result" with _ | r
        · exact iff_of_false (by decide) (by simp [hr])
        · rcases r with t | _ | _ | _ | _ <;> dsimp only
          · by_cases ht : t = "Success"
            · subst ht
              rw [if_pos rfl]
              exact iff_of_false (by decide) (by simp [hr])
            · by_cases hf : t = "Failure"
              · subst hf
                rw [if_neg ht, if_pos rfl]
                simp [hr]
              · rw [if_neg ht, if_neg hf]
                exact iff_of_false (by decide) (by simp [hr, hf])
          · exact iff_of_false (by decide) (by simp [hr])
          · exact iff_of_false (by decide) (by simp [hr])
          · exact iff_of_false (by decide) (by simp [hr])
          · exact iff_of_false (by decide) (by simp [hr])
      · rw [if_pos hs]
        exact iff_of_false (by decide) (by simp [hs])
    · exact iff_of_false (by decide) (by simp)
    · exact iff_of_false (by decide) (by simp)
    · exact iff_of_false (by decide) (by simp)
    · exact iff_of_false (by decide) (by simp)

/-- C1: for every pairing verb (Pair, ValidatePair, Unpair) the trust
store is mutated only after the device replies Result=Success — on
success of Unpair the device entry is removed, on success of Pair or
ValidatePair the freshly fetched device public key is stored; on
Result=Failure, or on any earlier error (public key fetch failure,
certificate fabrication failure, send or recv failure), the trust store
is unchanged. Stated as: the store component of `lockdownd_do_pair`
equals the specification-side `pairTrustStoreSpec`. -/
theorem C1_trust_store_gated_on_device_success (client : Client)
    (store : TrustStore) (host_id : Option String) (verb : String)
    (env : PairEnv)
    (_hverb : verb = "Pair" ∨ verb = "ValidatePair" ∨ verb = "Unpair") :
    (lockdownd_do_pair client store host_id verb env).store =
      pairTrustStoreSpec client store verb env := by
  rcases env with ⟨pk, certs, send, recv⟩
  by_cases hs : send = LockdownError.success <;>
    rcases pk with e | pk <;> rcases certs with e2 | certs <;>
      rcases recv with e3 | rdict <;>
        simp [lockdownd_do_pair, pairTrustStoreSpec, hs] <;>
          by_cases hc : lockdown_check_result rdict verb = 0 <;>
            by_cases hu : verb = "Unpair" <;>
              simp_all

/-- C1 witness: the theorem applied to a concrete successful Unpair
exchange. -/
theorem C1_witness :
    ("Unpair" = "Pair" ∨ "Unpair" = "ValidatePair" ∨ "Unpair" = "Unpair") ∧
    (lockdownd_do_pair ⟨none, false, some "1111-2222", none⟩
        ⟨some "H", [("1111-2222", [7])]⟩ none "Unpair"
        ⟨.ok [7], .ok ⟨[1], [2], [3]⟩, .success,
         .ok (.dict [("Request", .str "Unpair"), ("Result", .str "Success")])⟩).store =
      pairTrustStoreSpec ⟨none, false, some "1111-2222", none⟩
        ⟨some "H", [("1111-2222", [7])]⟩ "Unpair"
        ⟨.ok [7], .ok ⟨[1], [2], [3]⟩, .success,
         .ok (.dict [("Request", .str "Unpair"), ("Result", .str "Success")])⟩ :=
  ⟨Or.inr (Or.inr rfl),
   C1_trust_store_gated_on_device_success _ _ _ _ _ (Or.inr (Or.inr rfl))⟩

/-- C2 (amended): the request engine validator accepts a response
exactly when it echoes the sent verb in a string `Request` field and
carries a string `Result` equal to "Success" or "Failure"
(`lockdown_check_result` returns 0 resp. 1 exactly then); but GetValue
never acts on a failed check — with no ret reset after a successful
receive, ret stays LOCKDOWN_E_SUCCESS — so a parseable response of any
shape is accepted, Success is returned and the `Value` node extracted.
PlistError is returned only when the receive itself delivered it
(empty or unparseable response). -/
theorem C2_engine_response_validation (client : Client)
    (domain key : Option String) (dict : Plist) (verb : String) :
    (lockdown_check_result dict verb = 0 ↔ responseShapeOk dict verb "Success") ∧
    (lockdown_check_result dict verb = 1 ↔ responseShapeOk dict verb "Failure") ∧
    ((lockdownd_get_value client domain key .success (.ok dict)).1 =
        LockdownError.success ∧
     (lockdownd_get_value client domain key .success (.ok dict)).2.1 =
        plist_dict_get_item dict "Value") ∧
    (∀ e : LockdownError,
      (lockdownd_get_value client domain key .success (.error e)).1 = e) := by
  refine ⟨check_result_eq_zero_iff dict verb, check_result_eq_one_iff dict verb,
    ⟨?_, ?_⟩, ?_⟩ <;> simp [lockdownd_get_value]

/-- C2 counterexample: the response `{Request: "GetValue"}` (no
`Result` field at all) is not of the accepted shape, yet GetValue
returns LOCKDOWN_E_SUCCESS — the missing ret reset masks the failed
check — and not the PlistError the claim demands. -/
theorem C2_counterexample :
    (lockdownd_get_value ⟨none, false, none, none⟩ none none .success
        (.ok (.dict [("Request", .str "GetValue")]))).1 =
      LockdownError.success ∧
    (lockdownd_get_value ⟨none, false, none, none⟩ none none .success
        (.ok (.dict [("Request", .str "GetValue")]))).1 ≠
      LockdownError.plistError :=
  ⟨by decide, by decide⟩

/-- C2 witness: the amended theorem applied to the same concrete
malformed response, exhibiting the unconditional acceptance. -/
theorem C2_witness :
    (lockdownd_get_value ⟨none, false, none, none⟩ none none .success
        (.ok (.dict [("Request", .str "GetValue")]))).1 =
      LockdownError.success ∧
    (lockdownd_get_value ⟨none, false, none, none⟩ none none .success
        (.ok (.dict [("Request", .str "GetValue")]))).2.1 = none :=
  ⟨((C2_engine_response_validation ⟨none, false, none, none⟩ none none
      (.dict [("Request", .str "GetValue")]) "GetValue").2.2.1).1,
   by
     rw [((C2_engine_response_validation ⟨none, false, none, none⟩ none none
       (.dict [("Request", .str "GetValue")]) "GetValue").2.2.1).2]
     rfl⟩

/- Helper: on a parseable response that does not check out as Success,
`lockdownd_do_pair` maps the `Error` field and leaves the store
untouched. -/
theorem do_pair_failure_outcome (client : Client) (store : TrustStore)
    (host_id : Option String) (verb : String) (pk : List Nat)
    (certs : PairCerts) (dict : Plist)
    (hc : lockdown_check_result dict verb ≠ 0) :
    (lockdownd_do_pair client store host_id verb
        ⟨.ok pk, .ok certs, .success, .ok dict⟩).err =
      (match plist_dict_get_item dict "Error" with
       | some (.str v) =>
         if v = "PasswordProtected" then LockdownError.passwordProtected
         else LockdownError.pairingFailed
       | _ => LockdownError.pairingFailed) ∧
    (lockdownd_do_pair client store host_id verb
        ⟨.ok pk, .ok certs, .success, .ok dict⟩).store = store := by
  simp [lockdownd_do_pair, hc]

/-- C3 (amended): when a Pair, ValidatePair or Unpair request receives
a response with Result=Failure, the returned error is PasswordProtected
if the response's Error string equals "PasswordProtected", and
PairingFailed for every other Error value (including "InvalidHostID" —
the pairing path maps no error string to InvalidHostId) as well as for
a missing or non-string Error field. -/
theorem C3_pairing_failure_error_mapping (client : Client)
    (store : TrustStore) (host_id : Option String) (verb : String)
    (pk : List Nat) (certs : PairCerts) (dict : Plist)
    (_hverb : verb = "Pair" ∨ verb = "ValidatePair" ∨ verb = "Unpair")
    (hfail : lockdown_check_result dict verb = 1) :
    (plist_dict_get_item dict "Error" = some (.str "PasswordProtected") →
      (lockdownd_do_pair client store host_id verb
          ⟨.ok pk, .ok certs, .success, .ok dict⟩).err =
        LockdownError.passwordProtected) ∧
    (∀ v : String, plist_dict_get_item dict "Error" = some (.str v) →
      v ≠ "PasswordProtected" →
      (lockdownd_do_pair client store host_id verb
          ⟨.ok pk, .ok certs, .success, .ok dict⟩).err =
        LockdownError.pairingFailed) ∧
    ((∀ s : String, plist_dict_get_item dict "Error" ≠ some (.str s)) →
      (lockdownd_do_pair client store host_id verb
          ⟨.ok pk, .ok certs, .success, .ok dict⟩).err =
        LockdownError.pairingFailed) := by
  have hc : lockdown_check_result dict verb ≠ 0 := by
    rw [hfail]; decide
  have h := (do_pair_failure_outcome client store host_id verb pk certs dict hc).1
  refine ⟨?_, ?_, ?_⟩
  · intro he
    rw [h, he]
    simp
  · intro v he hv
    rw [h, he]
    simp [hv]
  · intro he
    rw [h]
    rcases hg : plist_dict_get_item dict "Error" with _ | p
    · rfl
    · rcases p with s | _ | _ | _ | _
      · exact absurd hg (he s)
      · rfl
      · rfl
      · rfl
      · rfl

/-- C3 counterexample: a Pair response `{Request: "Pair", Result:
"Failure", Error: "InvalidHostID"}` yields PairingFailed, not the
InvalidHostId the claim demands. -/
theorem C3_counterexample :
    (lockdownd_do_pair ⟨none, false, some "1111-2222", none⟩
        ⟨some "H", []⟩ (some "H") "Pair"
        ⟨.ok [7], .ok ⟨[1], [2], [3]⟩, .success,
         .ok (.dict [("Request", .str "Pair"), ("Result", .str "Failure"),
                     ("Error", .str "InvalidHostID")])⟩).err =
      LockdownError.pairingFailed ∧
    (lockdownd_do_pair ⟨none, false, some "1111-2222", none⟩
        ⟨some "H", []⟩ (some "H") "Pair"
        ⟨.ok [7], .ok ⟨[1], [2], [3]⟩, .success,
         .ok (.dict [("Request", .str "Pair"), ("Result", .str "Failure"),
                     ("Error", .str "InvalidHostID")])⟩).err ≠
      LockdownError.invalidHostId :=
  ⟨by decide, by decide⟩

/-- C3 witness: the amended theorem applied to a concrete
password-protected Pair failure. -/
theorem C3_witness :
    lockdown_check_result
        (.dict [("Request", .str "Pair"), ("Result", .str "Failure"),
                ("Error", .str "PasswordProtected")]) "Pair" = 1 ∧
    (lockdownd_do_pair ⟨none, false, some "1111-2222", none⟩
        ⟨some "H", []⟩ (some "H") "Pair"
        ⟨.ok [7], .ok ⟨[1], [2], [3]⟩, .success,
         .ok (.dict [("Request", .str "Pair"), ("Result", .str "Failure"),
                     ("Error", .str "PasswordProtected")])⟩).err =
      LockdownError.passwordProtected :=
  ⟨by decide,
   (C3_pairing_failure_error_mapping ⟨none, false, some "1111-2222", none⟩
      ⟨some "H", []⟩ (some "H") "Pair" [7] ⟨[1], [2], [3]⟩
      (.dict [("Request", .str "Pair"), ("Result", .str "Failure"),
              ("Error", .str "PasswordProtected")])
      (Or.inl rfl) (by decide)).1 rfl⟩

/-- C4 (amended): on a client whose session_id is absent, activate and
deactivate return NoRunningSession and emit no bytes on the wire;
start_service does so too provided the trust store holds a host id —
when the host id is missing, its earlier guard returns InvalidConf
instead (still emitting no bytes). -/
theorem C4_session_required_guards (client : Client) (store : TrustStore)
    (service : String) (send_res : LockdownError) (recv_res : RecvResult)
    (record : Plist) (hid : String)
    (hsess : client.session_id = none) :
    (store.host_id = some hid →
      lockdownd_start_service client store service send_res recv_res =
        ⟨.noRunningSession, none, []⟩) ∧
    (store.host_id = none →
      lockdownd_start_service client store service send_res recv_res =
        ⟨.invalidConf, none, []⟩) ∧
    lockdownd_activate client (some record) recv_res = (.noRunningSession, []) ∧
    lockdownd_deactivate client recv_res = (.noRunningSession, []) := by
  refine ⟨?_, ?_, ?_, ?_⟩
  · intro hh
    simp [lockdownd_start_service, hh, hsess]
  · intro hh
    simp [lockdownd_start_service, hh]
  · simp [lockdownd_activate, hsess]
  · simp [lockdownd_deactivate, hsess]

/-- C4 counterexample: with no session and no stored host id,
start_service returns InvalidConf, not the NoRunningSession the claim
demands (the host-id guard precedes the session guard). -/
theorem C4_counterexample :
    (lockdownd_start_service ⟨none, false, none, none⟩ ⟨none, []⟩
        "com.apple.afc" .success (.error .plistError)).err =
      LockdownError.invalidConf ∧
    (lockdownd_start_service ⟨none, false, none, none⟩ ⟨none, []⟩
        "com.apple.afc" .success (.error .plistError)).err ≠
      LockdownError.noRunningSession :=
  ⟨by decide, by decide⟩

/-- C4 witness: the amended theorem applied to a sessionless client
with a configured host id. -/
theorem C4_witness :
    (⟨none, false, none, none⟩ : Client).session_id = none ∧
    lockdownd_start_service ⟨none, false, none, none⟩ ⟨some "H", []⟩
        "com.apple.afc" .success (.error .plistError) =
      ⟨.noRunningSession, none, []⟩ :=
  ⟨rfl,
   (C4_session_required_guards ⟨none, false, none, none⟩ ⟨some "H", []⟩
      "com.apple.afc" .success (.error .plistError) (.dict []) "H" rfl).1 rfl⟩

/-- C5 (amended): on a StartSession-capable client (host id
configured, session open), a StartService response that checks out as
Success with an unsigned integer Port whose uint64 value is non-zero
makes the call succeed; the returned port is that value truncated to
32 bits and reinterpreted as a signed C int, which equals the sent
Port exactly when it is below 2^31. A response that does not check out
as Success (in particular Result=Failure) yields StartServiceFailed;
but a Success response with a missing or non-integer Port, or one
whose uint64 value is zero, yields UnknownError, not
StartServiceFailed. -/
theorem C5_start_service_response_mapping (client : Client)
    (store : TrustStore) (service : String) (dict : Plist)
    (hid sid : String)
    (hh : store.host_id = some hid) (hs : client.session_id = some sid) :
    (lockdown_check_result dict "StartService" = 0 →
      (∀ p : Nat, plist_dict_get_item dict "Port" = some (.uint p) →
        p % 2 ^ 64 ≠ 0 →
        (lockdownd_start_service client store service .success (.ok dict)).err =
          LockdownError.success ∧
        (lockdownd_start_service client store service .success (.ok dict)).port =
          some (toInt32 (p % 2 ^ 32)) ∧
        (p < 2 ^ 31 →
          (lockdownd_start_service client store service .success (.ok dict)).port =
            some (p : Int))) ∧
      (∀ p : Nat, plist_dict_get_item dict "Port" = some (.uint p) →
        p % 2 ^ 64 = 0 →
        (lockdownd_start_service client store service .success (.ok dict)).err =
          LockdownError.unknownError) ∧
      (plist_dict_get_item dict "Port" = none →
        (lockdownd_start_service client store service .success (.ok dict)).err =
          LockdownError.unknownError)) ∧
    (lockdown_check_result dict "StartService" ≠ 0 →
      (lockdownd_start_service client store service .success (.ok dict)).err =
        LockdownError.startServiceFailed) := by
  constructor
  · intro hc
    refine ⟨?_, ?_, ?_⟩
    · intro p hp hpz
      norm_num at hpz
      have hmm : p % 18446744073709551616 % 4294967296 = p % 4294967296 :=
        Nat.mod_mod_of_dvd p (by norm_num)
      refine ⟨?_, ?_, ?_⟩
      · simp [lockdownd_start_service, hh, hs, hc, hp, hpz]
      · simp [lockdownd_start_service, hh, hs, hc, hp, hpz, hmm]
      · intro hsmall
        norm_num at hsmall
        have h32 : p % 4294967296 = p :=
          Nat.mod_eq_of_lt (lt_trans hsmall (by norm_num))
        simp [lockdownd_start_service, hh, hs, hc, hp, hpz, hmm, h32,
              toInt32, hsmall]
    · intro p hp hpz
      norm_num at hpz
      simp [lockdownd_start_service, hh, hs, hc, hp, hpz]
    · intro hp
      simp [lockdownd_start_service, hh, hs, hc, hp]
  · intro hc
    simp [lockdownd_start_service, hh, hs, hc]

/-- C5 counterexample: a `{Result: Success, Port: 0}` StartService
response yields UnknownError, not the StartServiceFailed the claim
demands (the failure arm binds to the outer result check only); and a
`{Result: Success, Port: 2^32}` response succeeds but delivers port 0
through the uint64-to-uint32 truncation, not the sent port. -/
theorem C5_counterexample :
    (lockdownd_start_service ⟨some "S1", false, none, none⟩ ⟨some "H", []⟩
        "com.apple.afc" .success
        (.ok (.dict [("Request", .str "StartService"),
                     ("Result", .str "Success"), ("Port", .uint 0)]))).err =
      LockdownError.unknownError ∧
    (lockdownd_start_service ⟨some "S1", false, none, none⟩ ⟨some "H", []⟩
        "com.apple.afc" .success
        (.ok (.dict [("Request", .str "StartService"),
                     ("Result", .str "Success"), ("Port", .uint 0)]))).err ≠
      LockdownError.startServiceFailed ∧
    (lockdownd_start_service ⟨some "S1", false, none, none⟩ ⟨some "H", []⟩
        "com.apple.afc" .success
        (.ok (.dict [("Request", .str "StartService"),
                     ("Result", .str "Success"),
                     ("Port", .uint (2 ^ 32))]))).err =
      LockdownError.success ∧
    (lockdownd_start_service ⟨some "S1", false, none, none⟩ ⟨some "H", []⟩
        "com.apple.afc" .success
        (.ok (.dict [("Request", .str "StartService"),
                     ("Result", .str "Success"),
                     ("Port", .uint (2 ^ 32))]))).port = some 0 :=
  ⟨by decide, by decide, by decide, by decide⟩

/-- C5 witness: the amended theorem applied to a concrete successful
StartService exchange delivering port 4242, which is below 2^31 and so
comes back unchanged. -/
theorem C5_witness :
    lockdown_check_result
        (.dict [("Request", .str "StartService"), ("Result", .str "Success"),
                ("Port", .uint 4242)]) "StartService" = 0 ∧
    (lockdownd_start_service ⟨some "S1", false, none, none⟩ ⟨some "H", []⟩
        "com.apple.afc" .success
        (.ok (.dict [("Request", .str "StartService"),
                     ("Result", .str "Success"), ("Port", .uint 4242)]))).err =
      LockdownError.success ∧
    (lockdownd_start_service ⟨some "S1", false, none, none⟩ ⟨some "H", []⟩
        "com.apple.afc" .success
        (.ok (.dict [("Request", .str "StartService"),
                     ("Result", .str "Success"), ("Port", .uint 4242)]))).port =
      some (4242 : Int) :=
  ⟨by decide,
   (((C5_start_service_response_mapping ⟨some "S1", false, none, none⟩
       ⟨some "H", []⟩ "com.apple.afc"
       (.dict [("Request", .str "StartService"), ("Result", .str "Success"),
               ("Port", .uint 4242)]) "H" "S1" rfl rfl).1
     (by decide)).1 4242 rfl (by decide)).1,
   (((C5_start_service_response_mapping ⟨some "S1", false, none, none⟩
       ⟨some "H", []⟩ "com.apple.afc"
       (.dict [("Request", .str "StartService"), ("Result", .str "Success"),
               ("Port", .uint 4242)]) "H" "S1" rfl rfl).1
     (by decide)).1 4242 rfl (by decide)).2.2 (by norm_num)⟩

/-- C6: if StartSession succeeds at the protocol level (the response is
not a checked Failure, carries a string SessionID and requests SSL via
EnableSessionSSL=true) but the TLS handshake fails, the client still
stores the session id, ssl_enabled stays 0, and the call returns
SslError. -/
theorem C6_tls_failure_keeps_session_id (client : Client)
    (host_id : Option String) (stop_recv : RecvResult) (dict : Plist)
    (s : String)
    (hsess : client.session_id = none) (hssl : client.ssl_enabled = false)
    (hsid : plist_dict_get_item dict "SessionID" = some (.str s))
    (hreq : plist_dict_get_item dict "EnableSessionSSL" = some (.boolean true))
    (hnf : lockdown_check_result dict "StartSession" ≠ 1) :
    (lockdownd_start_session client host_id
        ⟨stop_recv, .success, .ok dict, false⟩).err = LockdownError.sslError ∧
    (lockdownd_start_session client host_id
        ⟨stop_recv, .success, .ok dict, false⟩).client.session_id = some s ∧
    (lockdownd_start_session client host_id
        ⟨stop_recv, .success, .ok dict, false⟩).client.ssl_enabled = false := by
  refine ⟨?_, ?_, ?_⟩ <;>
    simp [lockdownd_start_session, lockdownd_ssl_start_session,
          hsess, hssl, hsid, hreq, hnf]

/-- C6 witness: the theorem applied to a concrete StartSession exchange
that demands SSL while the handshake fails. -/
theorem C6_witness :
    (⟨none, false, none, none⟩ : Client).session_id = none ∧
    (lockdownd_start_session ⟨none, false, none, none⟩ (some "H")
        ⟨.error .plistError, .success,
         .ok (.dict [("Request", .str "StartSession"), ("Result", .str "Success"),
                     ("EnableSessionSSL", .boolean true),
                     ("SessionID", .str "S1")]), false⟩).err =
      LockdownError.sslError ∧
    (lockdownd_start_session ⟨none, false, none, none⟩ (some "H")
        ⟨.error .plistError, .success,
         .ok (.dict [("Request", .str "StartSession"), ("Result", .str "Success"),
                     ("EnableSessionSSL", .boolean true),
                     ("SessionID", .str "S1")]), false⟩).client.session_id =
      some "S1" ∧
    (lockdownd_start_session ⟨none, false, none, none⟩ (some "H")
        ⟨.error .plistError, .success,
         .ok (.dict [("Request", .str "StartSession"), ("Result", .str "Success"),
                     ("EnableSessionSSL", .boolean true),
                     ("SessionID", .str "S1")]), false⟩).client.ssl_enabled =
      false :=
  ⟨rfl,
   (C6_tls_failure_keeps_session_id ⟨none, false, none, none⟩ (some "H")
      (.error .plistError)
      (.dict [("Request", .str "StartSession"), ("Result", .str "Success"),
              ("EnableSessionSSL", .boolean true), ("SessionID", .str "S1")])
      "S1" rfl rfl rfl rfl (by decide)).1,
   (C6_tls_failure_keeps_session_id ⟨none, false, none, none⟩ (some "H")
      (.error .plistError)
      (.dict [("Request", .str "StartSession"), ("Result", .str "Success"),
              ("EnableSessionSSL", .boolean true), ("SessionID", .str "S1")])
      "S1" rfl rfl rfl rfl (by decide)).2.1,
   (C6_tls_failure_keeps_session_id ⟨none, false, none, none⟩ (some "H")
      (.error .plistError)
      (.dict [("Request", .str "StartSession"), ("Result", .str "Success"),
              ("EnableSessionSSL", .boolean true), ("SessionID", .str "S1")])
      "S1" rfl rfl rfl rfl (by decide)).2.2⟩

/-- C7 (amended): after stop_session has exchanged the StopSession
request for a parseable response (success or failure), TLS is always
disabled (close-notify sent iff TLS was active, ssl_enabled reset) and
the stored session_id is cleared; but on an empty/unparseable reply the
call returns PlistError early, leaving the TLS state and the stored
session_id untouched. -/
theorem C7_stop_session_teardown (client : Client) (sid : String)
    (dict : Plist) :
    ((lockdownd_stop_session client (some sid) (.ok dict)).client.ssl_enabled =
        false ∧
     (lockdownd_stop_session client (some sid) (.ok dict)).client.session_id =
        none ∧
     (lockdownd_stop_session client (some sid) (.ok dict)).closeNotifySent =
        client.ssl_enabled) ∧
    (∀ e : LockdownError,
      (lockdownd_stop_session client (some sid) (.error e)).err =
          LockdownError.plistError ∧
      (lockdownd_stop_session client (some sid) (.error e)).client = client ∧
      (lockdownd_stop_session client (some sid) (.error e)).closeNotifySent =
          false) := by
  constructor
  · refine ⟨?_, ?_, ?_⟩ <;>
      simp [lockdownd_stop_session, lockdownd_ssl_stop_session]
  · intro e
    refine ⟨?_, ?_, ?_⟩ <;> simp [lockdownd_stop_session]

/-- C7 counterexample: an empty/unparseable StopSession reply makes the
call return PlistError with TLS still enabled, no close-notify sent and
the session id still stored — contradicting the claim that TLS is
always disabled and the session id always cleared. -/
theorem C7_counterexample :
    (lockdownd_stop_session ⟨some "S1", true, none, none⟩ (some "S1")
        (.error .plistError)).err = LockdownError.plistError ∧
    (lockdownd_stop_session ⟨some "S1", true, none, none⟩ (some "S1")
        (.error .plistError)).client.ssl_enabled = true ∧
    (lockdownd_stop_session ⟨some "S1", true, none, none⟩ (some "S1")
        (.error .plistError)).client.session_id = some "S1" ∧
    (lockdownd_stop_session ⟨some "S1", true, none, none⟩ (some "S1")
        (.error .plistError)).closeNotifySent = false := by
  refine ⟨by decide, by decide, by decide, by decide⟩

/-- C9 (the claim describes the intended behavior; the code drops the
duplicated label): lockdownd_client_new called with the non-null label
"test" leaves the new client's label field NULL — the strdup result is
discarded — so a request dictionary built for that client carries no
Label field at all. -/
theorem C9_label_discarded :
    (lockdownd_client_new true (some "test")).2 =
      some ⟨none, false, none, none⟩ ∧
    plist_dict_get_item
        (plist_dict_add_label (.dict [])
          ((⟨none, false, none, none⟩ : Client)).label) "Label" = none :=
  ⟨by decide, rfl⟩

/-- C10: a StartSession response that is not a checked Failure but
lacks a string SessionID field, with EnableSessionSSL absent, non-bool
or false, still makes lockdownd_start_session return success while the
client's session_id remains null — so subsequent session-requiring
calls (activate, deactivate, and start_service under a configured host
id) on that client return NoRunningSession. -/
theorem C10_success_without_stored_session (client : Client)
    (host_id : Option String) (stop_recv : RecvResult) (dict record : Plist)
    (store : TrustStore) (service : String) (hid : String) (hshake : Bool)
    (ar dr sr : RecvResult) (ssend : LockdownError)
    (hsess : client.session_id = none)
    (hnf : lockdown_check_result dict "StartSession" ≠ 1)
    (hsid : ∀ s : String, plist_dict_get_item dict "SessionID" ≠ some (.str s))
    (hssl : ∀ b : Bool,
      plist_dict_get_item dict "EnableSessionSSL" = some (.boolean b) →
        b = false) :
    (lockdownd_start_session client host_id
        ⟨stop_recv, .success, .ok dict, hshake⟩).err = LockdownError.success ∧
    (lockdownd_start_session client host_id
        ⟨stop_recv, .success, .ok dict, hshake⟩).client.session_id = none ∧
    (lockdownd_activate (lockdownd_start_session client host_id
        ⟨stop_recv, .success, .ok dict, hshake⟩).client (some record) ar).1 =
      LockdownError.noRunningSession ∧
    (lockdownd_deactivate (lockdownd_start_session client host_id
        ⟨stop_recv, .success, .ok dict, hshake⟩).client dr).1 =
      LockdownError.noRunningSession ∧
    (store.host_id = some hid →
      (lockdownd_start_service (lockdownd_start_session client host_id
          ⟨stop_recv, .success, .ok dict, hshake⟩).client store service
          ssend sr).err = LockdownError.noRunningSession) := by
  have key : (lockdownd_start_session client host_id
        ⟨stop_recv, .success, .ok dict, hshake⟩).err = LockdownError.success ∧
      (lockdownd_start_session client host_id
        ⟨stop_recv, .success, .ok dict, hshake⟩).client =
        { client with ssl_enabled := false } := by
    rcases hg1 : plist_dict_get_item dict "SessionID" with _ | (s1 | d1 | b1 | n1 | e1)
    all_goals first
      | exact absurd hg1 (hsid _)
      | (rcases hg2 : plist_dict_get_item dict "EnableSessionSSL"
           with _ | (s2 | d2 | b2 | n2 | e2) <;>
         first
           | (have hb := hssl _ hg2
              subst hb
              constructor <;>
                simp [lockdownd_start_session, hsess, hnf, hg1, hg2])
           | (constructor <;>
                simp [lockdownd_start_session, hsess, hnf, hg1, hg2]))
  obtain ⟨k1, k2⟩ := key
  refine ⟨k1, ?_, ?_, ?_, ?_⟩
  · rw [k2]
    exact hsess
  · rw [k2]
    simp [lockdownd_activate, hsess]
  · rw [k2]
    simp [lockdownd_deactivate, hsess]
  · intro hh
    rw [k2]
    simp [lockdownd_start_service, hh, hsess]

/-- C10 witness: the theorem applied to the concrete response
`{Request: "StartSession", Result: "Success"}` with no SessionID and no
EnableSessionSSL. -/
theorem C10_witness :
    (⟨none, false, none, none⟩ : Client).session_id = none ∧
    ((lockdownd_start_session ⟨none, false, none, none⟩ (some "H")
        ⟨.error .plistError, .success,
         .ok (.dict [("Request", .str "StartSession"),
                     ("Result", .str "Success")]), true⟩).err =
        LockdownError.success ∧
     (lockdownd_start_session ⟨none, false, none, none⟩ (some "H")
        ⟨.error .plistError, .success,
         .ok (.dict [("Request", .str "StartSession"),
                     ("Result", .str "Success")]), true⟩).client.session_id =
        none ∧
     (lockdownd_activate (lockdownd_start_session ⟨none, false, none, none⟩
          (some "H")
          ⟨.error .plistError, .success,
           .ok (.dict [("Request", .str "StartSession"),
                       ("Result", .str "Success")]), true⟩).client
        (some (.dict [])) (.error .plistError)).1 =
        LockdownError.noRunningSession ∧
     (lockdownd_deactivate (lockdownd_start_session ⟨none, false, none, none⟩
          (some "H")
          ⟨.error .plistError, .success,
           .ok (.dict [("Request", .str "StartSession"),
                       ("Result", .str "Success")]), true⟩).client
        (.error .plistError)).1 = LockdownError.noRunningSession ∧
     ((⟨some "H", []⟩ : TrustStore).host_id = some "H" →
       (lockdownd_start_service (lockdownd_start_session
            ⟨none, false, none, none⟩ (some "H")
            ⟨.error .plistError, .success,
             .ok (.dict [("Request", .str "StartSession"),
                         ("Result", .str "Success")]), true⟩).client
          ⟨some "H", []⟩ "com.apple.afc" .success (.error .plistError)).err =
         LockdownError.noRunningSession)) :=
  ⟨rfl,
   C10_success_without_stored_session ⟨none, false, none, none⟩ (some "H")
     (.error .plistError)
     (.dict [("Request", .str "StartSession"), ("Result", .str "Success")])
     (.dict []) ⟨some "H", []⟩ "com.apple.afc" "H" true
     (.error .plistError) (.error .plistError) (.error .plistError) .success
     rfl (by decide)
     (fun s h => Option.noConfusion h)
     (fun b h => Option.noConfusion h)⟩

/-- C8 (amended): if during new_with_handshake both the Pair request
and the unconditionally following ValidatePair request are answered
with Result=Failure and Error="PasswordProtected" (the locked-device
behavior), then new_with_handshake returns PasswordProtected, the
partially constructed client is freed, and the trust store is
unchanged. The Pair response alone does not determine the outcome: the
handshake overwrites Pair's error with ValidatePair's result. -/
theorem C8_locked_device_handshake (store : TrustStore)
    (label : Option String) (device_uuid hid : String)
    (qt_recv : RecvResult) (pk1 pk2 : List Nat) (c1 c2 : PairCerts)
    (pairDict valDict : Plist) (ss_env : StartSessionEnv)
    (hh : store.host_id = some hid)
    (hkey : store.hasDeviceKey device_uuid = false)
    (hp1 : lockdown_check_result pairDict "Pair" = 1)
    (hp2 : plist_dict_get_item pairDict "Error" =
      some (.str "PasswordProtected"))
    (hv1 : lockdown_check_result valDict "ValidatePair" = 1)
    (hv2 : plist_dict_get_item valDict "Error" =
      some (.str "PasswordProtected")) :
    lockdownd_client_new_with_handshake store label device_uuid
      ⟨qt_recv, .success, ⟨.ok pk1, .ok c1, .success, .ok pairDict⟩,
       ⟨.ok pk2, .ok c2, .success, .ok valDict⟩, ss_env⟩ =
      (.passwordProtected, none, store) := by
  have hc1 : lockdown_check_result pairDict "Pair" ≠ 0 := by
    rw [hp1]; decide
  have hc2 : lockdown_check_result valDict "ValidatePair" ≠ 0 := by
    rw [hv1]; decide
  simp [lockdownd_client_new_with_handshake, lockdownd_client_new,
        lockdownd_pair, lockdownd_validate_pair, lockdownd_do_pair,
        hh, hkey, hc1, hc2, hp2, hv2]

/-- C8 counterexample: the Pair request is answered with Result=Failure
and Error="PasswordProtected", yet because the handshake then calls
ValidatePair unconditionally and overwrites Pair's result, a device
that answers ValidatePair and StartSession with Success makes
new_with_handshake return Success — and the trust store is changed —
contradicting the claim. -/
theorem C8_counterexample :
    (lockdownd_client_new_with_handshake ⟨some "H", []⟩ (some "test")
        "1111-2222"
        ⟨.ok (.dict [("Request", .str "QueryType"), ("Result", .str "Success"),
                     ("Type", .str "com.apple.mobile.lockdown")]),
         .success,
         ⟨.ok [7], .ok ⟨[1], [2], [3]⟩, .success,
          .ok (.dict [("Request", .str "Pair"), ("Result", .str "Failure"),
                      ("Error", .str "PasswordProtected")])⟩,
         ⟨.ok [7], .ok ⟨[1], [2], [3]⟩, .success,
          .ok (.dict [("Request", .str "ValidatePair"),
                      ("Result", .str "Success")])⟩,
         ⟨.error .plistError, .success,
          .ok (.dict [("Request", .str "StartSession"),
                      ("Result", .str "Success"),
                      ("SessionID", .str "S1")]), true⟩⟩).1 =
      LockdownError.success ∧
    (lockdownd_client_new_with_handshake ⟨some "H", []⟩ (some "test")
        "1111-2222"
        ⟨.ok (.dict [("Request", .str "QueryType"), ("Result", .str "Success"),
                     ("Type", .str "com.apple.mobile.lockdown")]),
         .success,
         ⟨.ok [7], .ok ⟨[1], [2], [3]⟩, .success,
          .ok (.dict [("Request", .str "Pair"), ("Result", .str "Failure"),
                      ("Error", .str "PasswordProtected")])⟩,
         ⟨.ok [7], .ok ⟨[1], [2], [3]⟩, .success,
          .ok (.dict [("Request", .str "ValidatePair"),
                      ("Result", .str "Success")])⟩,
         ⟨.error .plistError, .success,
          .ok (.dict [("Request", .str "StartSession"),
                      ("Result", .str "Success"),
                      ("SessionID", .str "S1")]), true⟩⟩).1 ≠
      LockdownError.passwordProtected ∧
    (lockdownd_client_new_with_handshake ⟨some "H", []⟩ (some "test")
        "1111-2222"
        ⟨.ok (.dict [("Request", .str "QueryType"), ("Result", .str "Success"),
                     ("Type", .str "com.apple.mobile.lockdown")]),
         .success,
         ⟨.ok [7], .ok ⟨[1], [2], [3]⟩, .success,
          .ok (.dict [("Request", .str "Pair"), ("Result", .str "Failure"),
                      ("Error", .str "PasswordProtected")])⟩,
         ⟨.ok [7], .ok ⟨[1], [2], [3]⟩, .success,
          .ok (.dict [("Request", .str "ValidatePair"),
                      ("Result", .str "Success")])⟩,
         ⟨.error .plistError, .success,
          .ok (.dict [("Request", .str "StartSession"),
                      ("Result", .str "Success"),
                      ("SessionID", .str "S1")]), true⟩⟩).2.2 ≠
      (⟨some "H", []⟩ : TrustStore) :=
  ⟨by decide, by decide, by decide⟩

/-- C8 witness: the amended theorem applied to a concrete locked-device
run in which both Pair and ValidatePair fail password-protected. -/
theorem C8_witness :
    (⟨some "H", []⟩ : TrustStore).host_id = some "H" ∧
    lockdownd_client_new_with_handshake ⟨some "H", []⟩ (some "test")
        "1111-2222"
        ⟨.ok (.dict [("Request", .str "QueryType"), ("Result", .str "Success"),
                     ("Type", .str "com.apple.mobile.lockdown")]),
         .success,
         ⟨.ok [7], .ok ⟨[1], [2], [3]⟩, .success,
          .ok (.dict [("Request", .str "Pair"), ("Result", .str "Failure"),
                      ("Error", .str "PasswordProtected")])⟩,
         ⟨.ok [7], .ok ⟨[1], [2], [3]⟩, .success,
          .ok (.dict [("Request", .str "ValidatePair"),
                      ("Result", .str "Failure"),
                      ("Error", .str "PasswordProtected")])⟩,
         ⟨.error .plistError, .success, .error .plistError, false⟩⟩ =
      (.passwordProtected, none, ⟨some "H", []⟩) :=
  ⟨rfl,
   C8_locked_device_handshake ⟨some "H", []⟩ (some "test") "1111-2222" "H"
     (.ok (.dict [("Request", .str "QueryType"), ("Result", .str "Success"),
                  ("Type", .str "com.apple.mobile.lockdown")]))
     [7] [7] ⟨[1], [2], [3]⟩ ⟨[1], [2], [3]⟩
     (.dict [("Request", .str "Pair"), ("Result", .str "Failure"),
             ("Error", .str "PasswordProtected")])
     (.dict [("Request", .str "ValidatePair"), ("Result", .str "Failure"),
             ("Error", .str "PasswordProtected")])
     ⟨.error .plistError, .success, .error .plistError, false⟩
     rfl rfl (by decide) rfl (by decide) rfl⟩

/-- C7 witness: the amended theorem applied to a concrete TLS-enabled
client receiving a parseable StopSession reply. -/
theorem C7_witness :
    ((lockdownd_stop_session ⟨some "S1", true, none, none⟩ (some "S1")
        (.ok (.dict [("Request", .str "StopSession"),
                     ("Result", .str "Success")]))).client.ssl_enabled =
        false ∧
     (lockdownd_stop_session ⟨some "S1", true, none, none⟩ (some "S1")
        (.ok (.dict [("Request", .str "StopSession"),
                     ("Result", .str "Success")]))).client.session_id =
        none ∧
     (lockdownd_stop_session ⟨some "S1", true, none, none⟩ (some "S1")
        (.ok (.dict [("Request", .str "StopSession"),
                     ("Result", .str "Success")]))).closeNotifySent =
        (⟨some "S1", true, none, none⟩ : Client).ssl_enabled) ∧
    (∀ e : LockdownError,
      (lockdownd_stop_session ⟨some "S1", true, none, none⟩ (some "S1")
          (.error e)).err = LockdownError.plistError ∧
      (lockdownd_stop_session ⟨some "S1", true, none, none⟩ (some "S1")
          (.error e)).client = ⟨some "S1", true, none, none⟩ ∧
      (lockdownd_stop_session ⟨some "S1", true, none, none⟩ (some "S1")
          (.error e)).closeNotifySent = false) :=
  C7_stop_session_teardown ⟨some "S1", true, none, none⟩ "S1"
    (.dict [("Request", .str "StopSession"), ("Result", .str "Success")])
